import Mathlib

/-!
Shallow embedding of `scrapy/contrib/downloadermiddleware/httpcache.py`:
the `HttpCacheMiddleware` interception policy and the
`FilesystemCacheStorage` engine, together with theorems about their
behaviour.

The filesystem is modelled as an association list from record paths to
records; a record carries the directory's modification time (`os.stat(rpath).st_mtime`)
and an association list from file names to file contents.  File contents
are modelled as typed data (raw bytes, a raw header block, a metadata
record) plus a `corrupt` constructor standing for contents on which
deserialization (`pickle.load`) raises.
-/

/-- Byte sequences (Python `str` payloads opened in binary mode). -/
abbrev ByteSeq := List Nat

/-- Ordered multi-map of header name to values (`scrapy.http.Headers`). -/
abbrev HeadersV := List (String × List String)

/-- An HTTP request as consumed by the cache: `url`, `method`, `headers`, `body`. -/
structure Request where
  url : String
  method : String
  headers : HeadersV
  body : ByteSeq
deriving Repr, DecidableEq

/-- An HTTP response: `url`, `status`, `headers`, `body`, and the `flags` list. -/
structure Response where
  url : String
  status : Nat
  headers : HeadersV
  body : ByteSeq
  flags : List String
deriving Repr, DecidableEq

/-- A spider; only its `name` is consumed by the cache (namespace). -/
structure Spider where
  name : String
deriving Repr, DecidableEq

/-- The metadata dict written by `store_response`:
`{'url': ..., 'method': ..., 'status': ..., 'timestamp': ...}`. -/
structure Meta where
  url : String
  method : String
  status : Nat
  timestamp : Int
deriving Repr, DecidableEq

/-- Contents of one file under a record directory.  `bytes` is a raw byte
payload, `rawHeaders` a raw wire-format header block, `metaData` a
serialized metadata record, and `corrupt` stands for contents on which
`pickle.load` raises (truncated or garbage pickle data). -/
inductive FileData where
  | bytes (b : ByteSeq)
  | rawHeaders (h : HeadersV)
  | metaData (m : Meta)
  | corrupt
deriving Repr, DecidableEq

/-- Exceptions raised by the embedded code. -/
inductive PyError where
  /-- `IOError` from `open` on a missing file. -/
  | ioError
  /-- `pickle.load` failure on corrupt data. -/
  | unpicklingError
  /-- `scrapy.core.exceptions.IgnoreRequest`. -/
  | ignoreRequest
  /-- `scrapy.core.exceptions.NotConfigured`. -/
  | notConfigured
deriving Repr, DecidableEq

/-- A path is a list of components; `os.path.join` appends components. -/
abbrev FPath := List String

/-- One on-disk record directory: its modification time (`st_mtime`) and
its files, keyed by file name. -/
structure Record where
  mtime : Int
  files : List (String × FileData)
deriving Repr, DecidableEq

/-- The filesystem: association list from record paths to record directories. -/
abbrev FS := List (FPath × Record)

/-- Association-list lookup. -/
def aget {α β : Type} [DecidableEq α] : List (α × β) → α → Option β
  | [], _ => none
  | (k, v) :: t, k' => if k' = k then some v else aget t k'

/-- Association-list update-or-insert. -/
def aset {α β : Type} [DecidableEq α] : List (α × β) → α → β → List (α × β)
  | [], k, v => [(k, v)]
  | (k0, v0) :: t, k, v => if k0 = k then (k, v) :: t else (k0, v0) :: aset t k v

/-- Settings consumed by the cache (`HTTPCACHE_DIR`,
`HTTPCACHE_EXPIRATION_SECS`, `HTTPCACHE_IGNORE_MISSING`); an absent
setting is `none`. -/
structure Settings where
  httpcache_dir : Option String
  httpcache_expiration_secs : Option Int
  httpcache_ignore_missing : Bool
deriving Repr, DecidableEq

/-- Modelled from the spec: `settings.getint` for the expiration option is
not under `src/` (it lives in scrapy's settings module).  The spec states
"`expirationSeconds: integer` (negative or absent = never expire)", so an
absent value is read back as the negative never-expire sentinel. -/
def settingsGetintExpiration (v : Option Int) : Int :=
  match v with
  | some n => n
  | none => -1

/-- Modelled from the spec: the URL-parsing collaborator
(`scrapy.utils.httpobj.urlparse_cached`) is not under `src/`; only the
`scheme` component is consumed by the cache.  The scheme is the
(lowercased) prefix of the URL before the first colon, empty when the URL
has no colon. -/
def urlScheme (url : String) : String :=
  if url.data.contains ':' then String.mk (url.data.takeWhile (fun c => c ≠ ':')) else ""

/-- Modelled from the spec: the fingerprinting collaborator
(`scrapy.utils.request.request_fingerprint`) is not under `src/`; the spec
treats it as a black-box deterministic function of the request's method,
URL and normalized body/headers producing a stable key. -/
def request_fingerprint (r : Request) : String :=
  r.method ++ "|" ++ r.url ++ "|" ++ toString r.body

/-- Modelled from the spec: the header codec collaborator
`scrapy.utils.http.headers_dict_to_raw` is not under `src/`; the spec
treats `headersToRaw`/`rawToHeaders` as codecs between the multi-map form
and the raw wire form, inverse to each other (round-trip law), so the raw
wire form is represented by the header multi-map it encodes. -/
def headers_dict_to_raw (h : HeadersV) : HeadersV := h

/-- Modelled from the spec: the header codec collaborator
`scrapy.utils.http.headers_raw_to_dict`, inverse of `headers_dict_to_raw`;
file contents that are not a header block decode to the empty multi-map
(parsing raw bytes never raises). -/
def headers_raw_to_dict (d : FileData) : HeadersV :=
  match d with
  | FileData.rawHeaders h => h
  | _ => []

/-- `f.read()` on a file opened in binary mode: raw byte payloads read
back as themselves; other contents are some byte string (the claims never
read a non-byte payload as bytes). -/
def FileData.readBytes : FileData → ByteSeq
  | FileData.bytes b => b
  | _ => []

/-- `pickle.load` on the contents of `pickled_meta`: a serialized metadata
record deserializes to itself; anything else raises. -/
def pickleLoadMeta (d : FileData) : Except PyError Meta :=
  match d with
  | FileData.metaData m => Except.ok m
  | _ => Except.error PyError.unpicklingError

/-- `scrapy.core.downloader.responsetypes.responsetypes.from_args` (out of
scope per the spec) selects a response class from headers and URL; the
class chosen does not affect the `url`/`status`/`headers`/`body` fields,
so the reconstruction `respcls(url=url, headers=headers, status=status,
body=body)` is modelled as constructing a `Response` with those fields and
an empty `flags` list. -/
def reconstructResponse (url : String) (status : Nat) (headers : HeadersV)
    (body : ByteSeq) : Response :=
  { url := url, status := status, headers := headers, body := body, flags := [] }

/-- `FilesystemCacheStorage`: the `cachedir` and `expiration_secs` fields
set by `__init__`. -/
structure FilesystemCacheStorage where
  cachedir : String
  expiration_secs : Int
deriving Repr, DecidableEq

/-- `FilesystemCacheStorage.__init__`: raises `NotConfigured` when
`HTTPCACHE_DIR` is falsy (absent or equal to the empty string), otherwise
sets `cachedir` and reads `HTTPCACHE_EXPIRATION_SECS`. -/
def FilesystemCacheStorage.init (s : Settings) : Except PyError FilesystemCacheStorage :=
  match s.httpcache_dir with
  | none => Except.error PyError.notConfigured
  | some d =>
      if d = "" then Except.error PyError.notConfigured
      else Except.ok { cachedir := d,
                       expiration_secs := settingsGetintExpiration s.httpcache_expiration_secs }

namespace FilesystemCacheStorage

/-- `_get_request_path`: `join(self.cachedir, spider.name, key[0:2], key)`
with `key = request_fingerprint(request)`. -/
def get_request_path (st : FilesystemCacheStorage) (spider : Spider)
    (request : Request) : FPath :=
  let key := request_fingerprint request
  [st.cachedir, spider.name, key.take 2, key]

/-- `_read_meta`: returns `none` when `pickled_meta` does not exist or the
record is expired (`0 <= self.expiration_secs < time() - mtime`, with
`mtime` the record directory's `st_mtime`); otherwise unpickles
`pickled_meta`, which raises on corrupt contents. -/
def read_meta (st : FilesystemCacheStorage) (fs : FS) (now : Int)
    (spider : Spider) (request : Request) : Except PyError (Option Meta) :=
  let rpath := st.get_request_path spider request
  match aget fs rpath with
  | none => Except.ok none
  | some rcd =>
      match aget rcd.files "pickled_meta" with
      | none => Except.ok none
      | some d =>
          if 0 ≤ st.expiration_secs ∧ st.expiration_secs < now - rcd.mtime then
            Except.ok none
          else
            match pickleLoadMeta d with
            | Except.error e => Except.error e
            | Except.ok m => Except.ok (some m)

/-- `retrieve_response`: return the response if present in cache, `none`
otherwise.  After a successful `_read_meta`, opens `response_body` and
`response_headers` (raising `IOError` when either file is missing) and
reconstructs the response from the metadata's `url` and `status` and the
read payloads. -/
def retrieve_response (st : FilesystemCacheStorage) (fs : FS) (now : Int)
    (spider : Spider) (request : Request) : Except PyError (Option Response) :=
  match st.read_meta fs now spider request with
  | Except.error e => Except.error e
  | Except.ok none => Except.ok none
  | Except.ok (some metadata) =>
      let rpath := st.get_request_path spider request
      match aget fs rpath with
      | none => Except.error PyError.ioError
      | some rcd =>
          match aget rcd.files "response_body" with
          | none => Except.error PyError.ioError
          | some bodyData =>
              match aget rcd.files "response_headers" with
              | none => Except.error PyError.ioError
              | some rawheaders =>
                  let body := bodyData.readBytes
                  let headers := headers_raw_to_dict rawheaders
                  Except.ok (some
                    (reconstructResponse metadata.url metadata.status headers body))

/-- `store_response`: creates the record directory when absent
(`os.makedirs`, setting its `st_mtime` to the current time; an existing
directory keeps its `st_mtime`), then writes `meta`, `pickled_meta`,
`response_headers`, `response_body`, `request_headers` and `request_body`.
The metadata's `url` and `method` come from the request, `status` from the
response, `timestamp` from `time()`. -/
def store_response (st : FilesystemCacheStorage) (fs : FS) (now : Int)
    (spider : Spider) (request : Request) (response : Response) : FS :=
  let rpath := st.get_request_path spider request
  let rec0 : Record :=
    match aget fs rpath with
    | some r => r
    | none => { mtime := now, files := [] }
  let metadata : Meta :=
    { url := request.url, method := request.method,
      status := response.status, timestamp := now }
  let files := rec0.files
  let files := aset files "meta" (FileData.metaData metadata)
  let files := aset files "pickled_meta" (FileData.metaData metadata)
  let files := aset files "response_headers"
      (FileData.rawHeaders (headers_dict_to_raw response.headers))
  let files := aset files "response_body" (FileData.bytes response.body)
  let files := aset files "request_headers"
      (FileData.rawHeaders (headers_dict_to_raw request.headers))
  let files := aset files "request_body" (FileData.bytes request.body)
  aset fs rpath { mtime := rec0.mtime, files := files }

end FilesystemCacheStorage

/-- `HttpCacheMiddleware`: its storage engine and the
`HTTPCACHE_IGNORE_MISSING` ("strict mode") flag. -/
structure HttpCacheMiddleware where
  storage : FilesystemCacheStorage
  ignore_missing : Bool
deriving Repr, DecidableEq

namespace HttpCacheMiddleware

/-- `is_cacheable`: the request's URL scheme is `http` or `https`. -/
def is_cacheable (_mw : HttpCacheMiddleware) (request : Request) : Bool :=
  urlScheme request.url = "http" || urlScheme request.url = "https"

/-- `process_request`: non-cacheable requests pass through; otherwise the
storage is queried — on a hit the response gets the `cached` flag appended
and is returned, on a miss `IgnoreRequest` is raised when
`ignore_missing` is set, and `none` is returned otherwise.  Storage
exceptions propagate. -/
def process_request (mw : HttpCacheMiddleware) (fs : FS) (now : Int)
    (spider : Spider) (request : Request) : Except PyError (Option Response) :=
  if mw.is_cacheable request then
    match mw.storage.retrieve_response fs now spider request with
    | Except.error e => Except.error e
    | Except.ok (some response) =>
        Except.ok (some { response with flags := response.flags ++ ["cached"] })
    | Except.ok none =>
        if mw.ignore_missing then Except.error PyError.ignoreRequest
        else Except.ok none
  else
    Except.ok none

/-- `process_response`: stores the response when the request is cacheable
and always returns the response unchanged, together with the resulting
filesystem state. -/
def process_response (mw : HttpCacheMiddleware) (fs : FS) (now : Int)
    (spider : Spider) (request : Request) (response : Response) :
    Response × FS :=
  if mw.is_cacheable request then
    (response, mw.storage.store_response fs now spider request response)
  else
    (response, fs)

end HttpCacheMiddleware

/-- Modification time of the record directory after a store at time `t`:
an existing directory keeps its `st_mtime`, a fresh one gets `t` (writing
into an existing directory overwrites its files without touching the
directory's own modification time). -/
def storedMtime (fs : FS) (rpath : FPath) (t : Int) : Int :=
  match aget fs rpath with
  | some rcd => rcd.mtime
  | none => t

/-- Remove one file from a record directory (models external corruption of
a stored record by deletion/truncation of a sub-payload). -/
def removeFile (fs : FS) (p : FPath) (fname : String) : FS :=
  match aget fs p with
  | some rcd => aset fs p { rcd with files := rcd.files.filter (fun q => q.1 ≠ fname) }
  | none => fs

/-- Overwrite one file of a record directory with arbitrary contents
(models external corruption of a stored record). -/
def setFile (fs : FS) (p : FPath) (fname : String) (d : FileData) : FS :=
  match aget fs p with
  | some rcd => aset fs p { rcd with files := aset rcd.files fname d }
  | none => fs

/-! Concrete fixtures used by witnesses and counterexamples. -/

/-- A storage engine with a 60-second expiration window. -/
def cacheW : FilesystemCacheStorage := { cachedir := "cache", expiration_secs := 60 }

/-- A concrete spider (cache namespace). -/
def spiderW : Spider := { name := "s" }

/-- A concrete cacheable request. -/
def reqW : Request :=
  { url := "http://a.example/", method := "GET", headers := [("Accept", ["*"])], body := [] }

/-- A concrete response whose `url` differs from the request's `url`. -/
def respW : Response :=
  { url := "http://b.example/", status := 200, headers := [("Content-Type", ["text/html"])], body := [104, 105], flags := [] }

/-- A request with a non-HTTP scheme. -/
def reqFtpW : Request :=
  { url := "ftp://a.example/", method := "GET", headers := [], body := [] }

/-- The record path of `reqW`. -/
def rpathW : FPath := cacheW.get_request_path spiderW reqW

/-- The filesystem after storing `respW` for `reqW` at time 100. -/
def fsStoredW : FS := cacheW.store_response [] 100 spiderW reqW respW

/-- `fsStoredW` with the `response_body` sub-payload removed. -/
def fsMissingBodyW : FS := removeFile fsStoredW rpathW "response_body"

/-- `fsStoredW` with `pickled_meta` overwritten by undeserializable bytes. -/
def fsCorruptMetaW : FS := setFile fsStoredW rpathW "pickled_meta" FileData.corrupt

/-- `fsStoredW` with the `pickled_meta` file removed. -/
def fsMissingMetaW : FS := removeFile fsStoredW rpathW "pickled_meta"

/-- The metadata record written by the store in `fsStoredW`. -/
def metaW : Meta := { url := "http://a.example/", method := "GET", status := 200, timestamp := 100 }

/-- The on-disk record produced by the store in `fsStoredW`. -/
def recordW : Record :=
  { mtime := 100,
    files := [("meta", FileData.metaData metaW), ("pickled_meta", FileData.metaData metaW),
              ("response_headers", FileData.rawHeaders [("Content-Type", ["text/html"])]),
              ("response_body", FileData.bytes [104, 105]),
              ("request_headers", FileData.rawHeaders [("Accept", ["*"])]),
              ("request_body", FileData.bytes [])] }

/-- The response served from cache for `reqW` after the store in
`fsStoredW`: the request's `url`, the stored `status`/headers/body, and
the `cached` provenance flag. -/
def respCachedW : Response :=
  { url := "http://a.example/", status := 200, headers := [("Content-Type", ["text/html"])], body := [104, 105], flags := ["cached"] }

/-- Settings with a root directory but no expiration setting. -/
def cfgNoExpW : Settings :=
  { httpcache_dir := some "cache", httpcache_expiration_secs := none,
    httpcache_ignore_missing := false }

/-- The storage engine constructed from `cfgNoExpW`. -/
def cacheNoExpW : FilesystemCacheStorage := { cachedir := "cache", expiration_secs := -1 }

/-! Helper lemmas. -/

/-- Reading back an association list after an update. -/
theorem aget_aset {α β : Type} [DecidableEq α] (l : List (α × β)) (k k' : α) (v : β) :
    aget (aset l k v) k' = if k' = k then some v else aget l k' := by
  induction l with
  | nil => simp [aget, aset]
  | cons hd tl ih =>
      obtain ⟨k0, v0⟩ := hd
      by_cases h0 : k0 = k
      · subst h0
        by_cases h1 : k' = k0 <;> simp [aget, aset, h1]
      · by_cases h1 : k' = k0
        · subst h1
          simp [aget, aset, h0, Ne.symm h0]
        · simp [aget, aset, h0, h1, ih]

/-- Characterization of a retrieve right after a store of the same
request: a miss exactly when the record is expired relative to the
directory's modification time, and otherwise a response rebuilt from the
request's `url` and the stored `status`, headers and body. -/
theorem retrieve_after_store (st : FilesystemCacheStorage) (fs : FS) (t now : Int)
    (sp : Spider) (r : Request) (s : Response) :
    st.retrieve_response (st.store_response fs t sp r s) now sp r =
      if 0 ≤ st.expiration_secs ∧
         st.expiration_secs < now - storedMtime fs (st.get_request_path sp r) t then
        Except.ok none
      else
        Except.ok (some (reconstructResponse r.url s.status s.headers s.body)) := by
  unfold FilesystemCacheStorage.retrieve_response FilesystemCacheStorage.store_response
    FilesystemCacheStorage.read_meta storedMtime
  cases hrec : aget fs (st.get_request_path sp r) with
  | none =>
      by_cases hc : 0 ≤ st.expiration_secs ∧ st.expiration_secs < now - t <;>
        simp [hrec, aget_aset, pickleLoadMeta, headers_raw_to_dict, FileData.readBytes,
          reconstructResponse, headers_dict_to_raw, hc]
  | some rcd =>
      by_cases hc : 0 ≤ st.expiration_secs ∧ st.expiration_secs < now - rcd.mtime <;>
        simp [hrec, aget_aset, pickleLoadMeta, headers_raw_to_dict, FileData.readBytes,
          reconstructResponse, headers_dict_to_raw, hc]

/-- A request with no record directory retrieves as a miss. -/
theorem retrieve_absent (st : FilesystemCacheStorage) (fs : FS) (now : Int)
    (sp : Spider) (r : Request)
    (h : aget fs (st.get_request_path sp r) = none) :
    st.retrieve_response fs now sp r = Except.ok none := by
  unfold FilesystemCacheStorage.retrieve_response FilesystemCacheStorage.read_meta
  simp [h]

/-- Storing over an already-stored record keeps the directory's
modification time. -/
theorem storedMtime_store (st : FilesystemCacheStorage) (fs : FS) (t t' : Int)
    (sp : Spider) (r : Request) (s : Response) :
    storedMtime (st.store_response fs t sp r s) (st.get_request_path sp r) t' =
    storedMtime fs (st.get_request_path sp r) t := by
  unfold storedMtime FilesystemCacheStorage.store_response
  cases h : aget fs (st.get_request_path sp r) <;> simp [h, aget_aset]

/-- The `pickled_meta` file written by a store holds the request's `url`
and `method`, the response's `status`, and the store time. -/
theorem store_pickled_meta_lookup (st : FilesystemCacheStorage) (fs : FS) (t : Int)
    (sp : Spider) (r : Request) (s : Response) :
    (aget (st.store_response fs t sp r s) (st.get_request_path sp r)).map
        (fun rcd => aget rcd.files "pickled_meta") =
      some (some (FileData.metaData
        { url := r.url, method := r.method, status := s.status, timestamp := t })) := by
  unfold FilesystemCacheStorage.store_response
  cases h : aget fs (st.get_request_path sp r) <;> simp [h, aget_aset]

/-- Existential form of `store_pickled_meta_lookup`. -/
theorem store_writes_pickled_meta (st : FilesystemCacheStorage) (fs : FS) (t : Int)
    (sp : Spider) (r : Request) (s : Response) :
    ∃ rcd, aget (st.store_response fs t sp r s) (st.get_request_path sp r) = some rcd ∧
      aget rcd.files "pickled_meta" =
        some (FileData.metaData
          { url := r.url, method := r.method, status := s.status, timestamp := t }) := by
  have h := store_pickled_meta_lookup st fs t sp r s
  cases hh : aget (st.store_response fs t sp r s) (st.get_request_path sp r) with
  | none => rw [hh] at h; simp at h
  | some rcd =>
      rw [hh] at h
      simp at h
      exact ⟨rcd, rfl, h⟩

/-! Claims. -/

/-- C1, counterexample: the claim says a corrupt or incomplete record makes
`retrieve_response` return a miss; in fact an otherwise-valid, unexpired
record whose `response_body` sub-payload has been removed makes
`retrieve_response` raise `IOError` (the `open` call after a successful
`_read_meta` is not guarded), not return a miss. -/
theorem C1_counterexample :
    FilesystemCacheStorage.retrieve_response cacheW fsMissingBodyW 120 spiderW reqW
      = Except.error PyError.ioError := by rfl

/-- C1, amended: only an absent `pickled_meta` (or an absent record
directory, or expiry) is reported as a miss; for an existing unexpired
record, a `pickled_meta` that fails to deserialize raises an unpickling
error, and a missing `response_body` or `response_headers` raises
`IOError` — read failures on corrupt records propagate instead of being
degraded to a miss. -/
theorem C1_amended_thm (st : FilesystemCacheStorage) (fs : FS) (now : Int) (sp : Spider)
    (r : Request) (rcd : Record)
    (hrec : aget fs (st.get_request_path sp r) = some rcd)
    (hfresh : ¬ (0 ≤ st.expiration_secs ∧ st.expiration_secs < now - rcd.mtime)) :
    (aget rcd.files "pickled_meta" = none →
      st.retrieve_response fs now sp r = Except.ok none) ∧
    (aget rcd.files "pickled_meta" = some FileData.corrupt →
      st.retrieve_response fs now sp r = Except.error PyError.unpicklingError) ∧
    (∀ m, aget rcd.files "pickled_meta" = some (FileData.metaData m) →
      aget rcd.files "response_body" = none →
      st.retrieve_response fs now sp r = Except.error PyError.ioError) ∧
    (∀ m d, aget rcd.files "pickled_meta" = some (FileData.metaData m) →
      aget rcd.files "response_body" = some d →
      aget rcd.files "response_headers" = none →
      st.retrieve_response fs now sp r = Except.error PyError.ioError) := by
  unfold FilesystemCacheStorage.retrieve_response FilesystemCacheStorage.read_meta
  refine ⟨?_, ?_, ?_, ?_⟩
  · intro h; simp [hrec, h]
  · intro h; simp [hrec, h, pickleLoadMeta, if_neg hfresh]
  · intro m hm hb; simp [hrec, hm, hb, pickleLoadMeta, if_neg hfresh]
  · intro m d hm hb hh; simp [hrec, hm, hb, hh, pickleLoadMeta, if_neg hfresh]

/-- C1, witness: a record without `pickled_meta` is a miss, one with a
corrupt `pickled_meta` raises an unpickling error, and one without
`response_body` raises `IOError`. -/
theorem C1_amended_witness :
    FilesystemCacheStorage.retrieve_response cacheW fsMissingMetaW 120 spiderW reqW = Except.ok none ∧
    FilesystemCacheStorage.retrieve_response cacheW fsCorruptMetaW 120 spiderW reqW = Except.error PyError.unpicklingError ∧
    FilesystemCacheStorage.retrieve_response cacheW fsMissingBodyW 120 spiderW reqW = Except.error PyError.ioError := by
  refine ⟨?_, ?_, ?_⟩
  · exact (C1_amended_thm cacheW fsMissingMetaW 120 spiderW reqW _ rfl (by decide)).1 rfl
  · exact (C1_amended_thm cacheW fsCorruptMetaW 120 spiderW reqW _ rfl (by decide)).2.1 rfl
  · exact (C1_amended_thm cacheW fsMissingBodyW 120 spiderW reqW _ rfl (by decide)).2.2.1 _ rfl rfl

/-- C2, counterexample: the claim says the retrieved response's `url` is
identical to the stored response's; in fact after storing `respW` (whose
`url` is `http://b.example/`) for `reqW` (`http://a.example/`) the
retrieved response carries the request's URL, which differs from the
stored response's. -/
theorem C2_counterexample :
    FilesystemCacheStorage.retrieve_response cacheW fsStoredW 100 spiderW reqW =
      Except.ok (some (reconstructResponse "http://a.example/" 200
        [("Content-Type", ["text/html"])] [104, 105])) ∧
    "http://a.example/" ≠ respW.url := ⟨by rfl, by decide⟩

/-- C2, amended: for every cacheable request `r` and response `s`, after a
store, a retrieve within the expiration window returns a response whose
`status`, headers and body are identical to those of `s` and whose `url`
is the request's URL (identical to `s.url` exactly when the two
coincide). -/
theorem C2_roundtrip_amended (st : FilesystemCacheStorage) (fs : FS) (t now : Int)
    (sp : Spider) (r : Request) (s : Response)
    (_hc : urlScheme r.url = "http" ∨ urlScheme r.url = "https")
    (hfresh : ¬ (0 ≤ st.expiration_secs ∧
        st.expiration_secs < now - storedMtime fs (st.get_request_path sp r) t)) :
    ∃ resp, st.retrieve_response (st.store_response fs t sp r s) now sp r =
        Except.ok (some resp) ∧
      resp.status = s.status ∧ resp.headers = s.headers ∧ resp.body = s.body ∧
      resp.url = r.url := by
  refine ⟨reconstructResponse r.url s.status s.headers s.body, ?_, rfl, rfl, rfl, rfl⟩
  rw [retrieve_after_store, if_neg hfresh]

/-- C2, witness: round trip at concrete inputs within the window. -/
theorem C2_roundtrip_witness :
    ∃ resp, FilesystemCacheStorage.retrieve_response cacheW fsStoredW 120 spiderW reqW =
        Except.ok (some resp) ∧
      resp.status = respW.status ∧ resp.headers = respW.headers ∧ resp.body = respW.body ∧
      resp.url = reqW.url :=
  C2_roundtrip_amended cacheW [] 100 120 spiderW reqW respW (Or.inl (by decide)) (by decide)

/-- C3: for a cacheable request with no stored record, `process_request`
raises `IgnoreRequest` when `HTTPCACHE_IGNORE_MISSING` (strict mode) is
set, and returns nothing (the request proceeds to the network) in the
default mode. -/
theorem C3_miss_behavior (mw : HttpCacheMiddleware) (fs : FS) (now : Int)
    (sp : Spider) (r : Request)
    (hc : mw.is_cacheable r = true)
    (habsent : aget fs (mw.storage.get_request_path sp r) = none) :
    mw.process_request fs now sp r =
      if mw.ignore_missing then Except.error PyError.ignoreRequest
      else Except.ok none := by
  unfold HttpCacheMiddleware.process_request
  rw [retrieve_absent _ _ _ _ _ habsent]
  simp [hc]

/-- C3, witness: concrete strict-mode failure and default-mode pass. -/
theorem C3_miss_witness :
    HttpCacheMiddleware.process_request { storage := cacheW, ignore_missing := true } [] 0 spiderW reqW
      = Except.error PyError.ignoreRequest ∧
    HttpCacheMiddleware.process_request { storage := cacheW, ignore_missing := false } [] 0 spiderW reqW
      = Except.ok none :=
  ⟨C3_miss_behavior ⟨cacheW, true⟩ [] 0 spiderW reqW (by decide) rfl,
   C3_miss_behavior ⟨cacheW, false⟩ [] 0 spiderW reqW (by decide) rfl⟩

/-- C4: for every stored record, when `expiration_secs ≥ 0` and the age
relative to the record directory's modification time exceeds it,
`retrieve_response` reports a miss, and the on-disk record is untouched
(the embedded `retrieve_response` is a pure read — the source performs no
deletion or write — so the record is still present afterwards). -/
theorem C4_expired_miss (st : FilesystemCacheStorage) (fs : FS) (now : Int)
    (sp : Spider) (r : Request) (rcd : Record)
    (hrec : aget fs (st.get_request_path sp r) = some rcd)
    (hpos : 0 ≤ st.expiration_secs)
    (hage : st.expiration_secs < now - rcd.mtime) :
    st.retrieve_response fs now sp r = Except.ok none ∧
    aget fs (st.get_request_path sp r) = some rcd := by
  refine ⟨?_, hrec⟩
  unfold FilesystemCacheStorage.retrieve_response FilesystemCacheStorage.read_meta
  cases hm : aget rcd.files "pickled_meta" <;> simp [hrec, hm, hpos, hage]

/-- C4, witness: the record stored at time 100 with a 60-second window is
a miss at time 161 and still exists on disk. -/
theorem C4_expired_witness :
    FilesystemCacheStorage.retrieve_response cacheW fsStoredW 161 spiderW reqW = Except.ok none ∧
    aget fsStoredW (cacheW.get_request_path spiderW reqW) = some recordW :=
  C4_expired_miss cacheW fsStoredW 161 spiderW reqW recordW rfl (by decide) (by decide)

/-- C5: when the configured expiration is negative or absent (an absent
setting reads back as the never-expire sentinel), a stored record is
retrieved successfully at every later time — it never expires due to
age. -/
theorem C5_never_expire (cfg : Settings) (st : FilesystemCacheStorage)
    (hinit : FilesystemCacheStorage.init cfg = Except.ok st)
    (hexp : cfg.httpcache_expiration_secs = none ∨
      ∃ n, cfg.httpcache_expiration_secs = some n ∧ n < 0)
    (fs : FS) (t now : Int) (sp : Spider) (r : Request) (s : Response) :
    st.retrieve_response (st.store_response fs t sp r s) now sp r =
      Except.ok (some (reconstructResponse r.url s.status s.headers s.body)) := by
  have hneg : st.expiration_secs < 0 := by
    unfold FilesystemCacheStorage.init at hinit
    split at hinit
    · exact absurd hinit (by simp)
    · split at hinit
      · exact absurd hinit (by simp)
      · injection hinit with hst
        rcases hexp with h | ⟨n, hn, hneg2⟩
        · rw [← hst]; simp [h, settingsGetintExpiration]
        · rw [← hst]; simpa [hn, settingsGetintExpiration] using hneg2
  rw [retrieve_after_store, if_neg (by omega)]

/-- C5, witness: with no expiration setting, a record stored at time 100
is still a hit at time 1000000. -/
theorem C5_witness :
    FilesystemCacheStorage.retrieve_response cacheNoExpW
        (FilesystemCacheStorage.store_response cacheNoExpW [] 100 spiderW reqW respW)
        1000000 spiderW reqW =
      Except.ok (some (reconstructResponse reqW.url respW.status respW.headers respW.body)) :=
  C5_never_expire cfgNoExpW cacheNoExpW rfl (Or.inl rfl) [] 100 1000000 spiderW reqW respW

/-- C6: `is_cacheable` holds exactly when the request's URL scheme is
`http` or `https`; for a non-cacheable request, `process_request` returns
nothing whatever the filesystem holds (the storage is never queried) and
`process_response` returns the response with the filesystem unchanged
(nothing is stored). -/
theorem C6_scheme_gate (mw : HttpCacheMiddleware) (r : Request) (fs : FS) (now : Int)
    (sp : Spider) (s : Response) :
    (mw.is_cacheable r = true ↔
      (urlScheme r.url = "http" ∨ urlScheme r.url = "https")) ∧
    (mw.is_cacheable r = false →
      mw.process_request fs now sp r = Except.ok none ∧
      mw.process_response fs now sp r s = (s, fs)) := by
  constructor
  · simp [HttpCacheMiddleware.is_cacheable]
  · intro h
    unfold HttpCacheMiddleware.process_request HttpCacheMiddleware.process_response
    simp [h]

/-- C6, witness: an `ftp` request passes through both hooks untouched even
with a populated cache. -/
theorem C6_witness :
    HttpCacheMiddleware.process_request { storage := cacheW, ignore_missing := false }
        fsStoredW 120 spiderW reqFtpW = Except.ok none ∧
    HttpCacheMiddleware.process_response { storage := cacheW, ignore_missing := false }
        fsStoredW 120 spiderW reqFtpW respW = (respW, fsStoredW) :=
  (C6_scheme_gate ⟨cacheW, false⟩ reqFtpW fsStoredW 120 spiderW respW).2 (by decide)

/-- C7: on a cache hit for a cacheable request, `process_request` returns
the retrieved response with the `cached` provenance flag appended,
whatever the value of the strict-mode flag (the middleware is arbitrary
here, so both modes are covered). -/
theorem C7_hit_flagged (mw : HttpCacheMiddleware) (fs : FS) (now : Int) (sp : Spider)
    (r : Request) (resp : Response)
    (hc : mw.is_cacheable r = true)
    (hhit : mw.storage.retrieve_response fs now sp r = Except.ok (some resp)) :
    mw.process_request fs now sp r =
      Except.ok (some { resp with flags := resp.flags ++ ["cached"] }) := by
  unfold HttpCacheMiddleware.process_request
  simp [hc, hhit]

/-- C7, witness: the stored record is served flagged `cached` in both
strict and default modes. -/
theorem C7_witness :
    HttpCacheMiddleware.process_request { storage := cacheW, ignore_missing := true }
        fsStoredW 120 spiderW reqW = Except.ok (some respCachedW) ∧
    HttpCacheMiddleware.process_request { storage := cacheW, ignore_missing := false }
        fsStoredW 120 spiderW reqW = Except.ok (some respCachedW) :=
  ⟨C7_hit_flagged ⟨cacheW, true⟩ fsStoredW 120 spiderW reqW
      (reconstructResponse "http://a.example/" 200 [("Content-Type", ["text/html"])] [104, 105])
      (by decide) rfl,
   C7_hit_flagged ⟨cacheW, false⟩ fsStoredW 120 spiderW reqW
      (reconstructResponse "http://a.example/" 200 [("Content-Type", ["text/html"])] [104, 105])
      (by decide) rfl⟩

/-- C8: storage construction raises `NotConfigured` exactly when the root
directory setting is falsy (absent, or present but empty — Python's
`if not cachedir` treats both as unconfigured); with a non-empty root
directory it succeeds, with the configured directory and expiration. -/
theorem C8_init_config (cfg : Settings) :
    (FilesystemCacheStorage.init cfg = Except.error PyError.notConfigured ↔
      (cfg.httpcache_dir = none ∨ cfg.httpcache_dir = some "")) ∧
    (∀ d, cfg.httpcache_dir = some d → d ≠ "" →
      FilesystemCacheStorage.init cfg = Except.ok
        { cachedir := d,
          expiration_secs := settingsGetintExpiration cfg.httpcache_expiration_secs }) := by
  unfold FilesystemCacheStorage.init
  cases h : cfg.httpcache_dir with
  | none => simp
  | some d => by_cases hd : d = "" <;> simp [hd]

/-- C8, witness: construction fails without a directory and succeeds with
one. -/
theorem C8_witness :
    FilesystemCacheStorage.init
        { httpcache_dir := none, httpcache_expiration_secs := some 60,
          httpcache_ignore_missing := false } = Except.error PyError.notConfigured ∧
    FilesystemCacheStorage.init
        { httpcache_dir := some "cache", httpcache_expiration_secs := some 60,
          httpcache_ignore_missing := false } =
      Except.ok { cachedir := "cache", expiration_secs := 60 } :=
  ⟨(C8_init_config _).1.mpr (Or.inl rfl),
   (C8_init_config _).2 "cache" rfl (by decide)⟩

/-- C9: storing the same request/response pair twice is idempotent for
retrieval — a retrieve at any time after the second store returns exactly
what it would after a single store (the second store overwrites the same
files and the directory keeps its modification time). -/
theorem C9_store_idempotent (st : FilesystemCacheStorage) (fs : FS) (t t' now : Int)
    (sp : Spider) (r : Request) (s : Response) :
    st.retrieve_response (st.store_response (st.store_response fs t sp r s) t' sp r s) now sp r =
    st.retrieve_response (st.store_response fs t sp r s) now sp r := by
  rw [retrieve_after_store, retrieve_after_store, storedMtime_store]

/-- C10: the metadata persisted by a store takes `url` and `method` from
the request, not the response, and a subsequent in-window retrieve returns
a response carrying the request's URL — even when the stored response's
own URL differs from it. -/
theorem C10_meta_from_request (st : FilesystemCacheStorage) (fs : FS) (t now : Int)
    (sp : Spider) (r : Request) (s : Response)
    (_hne : s.url ≠ r.url)
    (hfresh : ¬ (0 ≤ st.expiration_secs ∧
        st.expiration_secs < now - storedMtime fs (st.get_request_path sp r) t)) :
    (∃ rcd, aget (st.store_response fs t sp r s) (st.get_request_path sp r) = some rcd ∧
      aget rcd.files "pickled_meta" =
        some (FileData.metaData
          { url := r.url, method := r.method, status := s.status, timestamp := t })) ∧
    st.retrieve_response (st.store_response fs t sp r s) now sp r =
      Except.ok (some (reconstructResponse r.url s.status s.headers s.body)) := by
  refine ⟨store_writes_pickled_meta st fs t sp r s, ?_⟩
  rw [retrieve_after_store, if_neg hfresh]

/-- C10, witness: concrete store of `respW` (url `http://b.example/`) for
`reqW` (url `http://a.example/`). -/
theorem C10_witness :
    (∃ rcd, aget fsStoredW rpathW = some rcd ∧
      aget rcd.files "pickled_meta" =
        some (FileData.metaData
          { url := reqW.url, method := reqW.method, status := respW.status, timestamp := 100 })) ∧
    FilesystemCacheStorage.retrieve_response cacheW fsStoredW 120 spiderW reqW =
      Except.ok (some (reconstructResponse reqW.url respW.status respW.headers respW.body)) :=
  C10_meta_from_request cacheW [] 100 120 spiderW reqW respW (by decide) (by decide)
